import Mathlib

/-!
Verification of the text-plaque builder in `src/streamlit_app.py`
(repository dataguy7777/Cad-app).

The file shallow-embeds the SolidPython CSG expressions that
`generate_solidpython_model` builds, the rendering/writing of the
`.scad` artifact (the file system modelled as a map from path strings
to byte lists), the `get_download_link` base64 anchor builder, and — as
a spec-modelled component, since it has no source under `src/` — the
`RadialFrameBuilder` of the design document.  Numeric parameters are
embedded as exact rationals (`ℚ`); the Python literal `0.6` is the
rational `3/5`.
-/

/-- A file system state: a map from path strings to file contents
(byte lists).  `none` means the file does not exist. -/
def FS : Type := String → Option (List Nat)

/-- The CSG expression language of the SolidPython calls that the
source uses: `text`, `linear_extrude`, `cube`, `translate`, `+`
(union); `cylinder` and `rotate` about Z are included for the
spec-modelled radial-frame builder. -/
inductive Solid : Type
  | text (txt : String) (size : ℚ) (font : String)
  | linear_extrude (height : ℚ) (child : Solid)
  | cube (dims : ℚ × ℚ × ℚ)
  | cylinder (radius : ℚ) (height : ℚ)
  | translate (v : ℚ × ℚ × ℚ) (child : Solid)
  | rotate_z (angle : ℚ) (child : Solid)
  | union (a : Solid) (b : Solid)
deriving DecidableEq, Repr

/-- The CSG tree built by lines 24-31 of `streamlit_app.py`:
`txt = linear_extrude(height=height)(text(input_text, size=size, font=font))`,
`base = cube([size * len(input_text) * 0.6, size, thickness])`,
`model = txt + translate([0, 0, thickness])(base)`. -/
def generate_model (input_text : String) (font : String)
    (size height thickness : ℚ) : Solid :=
  Solid.union
    (Solid.linear_extrude height (Solid.text input_text size font))
    (Solid.translate (0, 0, thickness)
      (Solid.cube (size * (input_text.length : ℚ) * (3 / 5), size, thickness)))

/-- Deterministic decimal-free rendering of a rational for the `.scad`
text: an integer renders as its integer literal, any other rational as
a quotient of literals.  Fixed precision, so output is reproducible. -/
def ratScad (q : ℚ) : String :=
  if q.den = 1 then toString q.num
  else toString q.num ++ "/" ++ toString q.den

/-- The `scad_render` serializer: a deterministic textual rendering of
the CSG tree in OpenSCAD syntax. -/
def scad_render : Solid → String
  | Solid.text t s f =>
      "text(text = \"" ++ t ++ "\", size = " ++ ratScad s ++
        ", font = \"" ++ f ++ "\");"
  | Solid.linear_extrude h c =>
      "linear_extrude(height = " ++ ratScad h ++ ") \x7b " ++
        scad_render c ++ " \x7d"
  | Solid.cube (w, d, h) =>
      "cube(size = [" ++ ratScad w ++ ", " ++ ratScad d ++ ", " ++
        ratScad h ++ "]);"
  | Solid.cylinder r h =>
      "cylinder(r = " ++ ratScad r ++ ", h = " ++ ratScad h ++ ");"
  | Solid.translate (x, y, z) c =>
      "translate(v = [" ++ ratScad x ++ ", " ++ ratScad y ++ ", " ++
        ratScad z ++ "]) \x7b " ++ scad_render c ++ " \x7d"
  | Solid.rotate_z a c =>
      "rotate(a = " ++ ratScad a ++ ", v = [0, 0, 1]) \x7b " ++
        scad_render c ++ " \x7d"
  | Solid.union a b =>
      "union() \x7b " ++ scad_render a ++ " " ++ scad_render b ++ " \x7d"

/-- Byte content of a text file: the code points of the string (the
rendered `.scad` text is ASCII, where this agrees with UTF-8). -/
def str_bytes (s : String) : List Nat := s.toList.map Char.toNat

/-- Embedding of `os.path.join(a, b)` for POSIX paths as the source
uses it: an absolute second component replaces the first; otherwise the
components are joined with a single separator. -/
def os_path_join (a : String) (b : String) : String :=
  if b.data.head? = some '/' then b
  else if a = "" then b
  else if a.data.getLast? = some '/' then a ++ b
  else a ++ "/" ++ b

/-- Embedding of `generate_solidpython_model` (lines 9-41): build the
CSG tree, form the output path `os.path.join(output_dir,
"text_model.scad")`, write the rendered text there (creating the
directory is elided: the modelled state is the file map), and return
the path. -/
def generate_solidpython_model (input_text : String) (font : String)
    (size height thickness : ℚ) (output_dir : String) (fs : FS) :
    String × FS :=
  let model := generate_model input_text font size height thickness
  let scad_file := os_path_join output_dir ("text_model.scad")
  (scad_file,
    fun p => if p = scad_file then some (str_bytes (scad_render model))
             else fs p)

/-- The two children of the root union of a model. -/
def model_parts (m : Solid) : Option (Solid × Solid) :=
  match m with
  | Solid.union a b => some (a, b)
  | _ => none

/-- The dimensions of the base cube of a generated model: the root must
be a union whose right child is a translated cube. -/
def base_dims (m : Solid) : Option (ℚ × ℚ × ℚ) :=
  match m with
  | Solid.union _ (Solid.translate _ (Solid.cube d)) => some d
  | _ => none

/-- The font carried by the text leaf of a generated model. -/
def text_font_of (m : Solid) : Option String :=
  match m with
  | Solid.union (Solid.linear_extrude _ (Solid.text _ _ f)) _ => some f
  | _ => none

/-- The closed Z-interval a solid occupies, for the shapes whose
Z-extent is determined by construction: a cube or an extrusion spans
`[0, height]` in its local frame, and a translation shifts the
interval by its Z component. -/
def z_extent : Solid → Option (ℚ × ℚ)
  | Solid.cube (_, _, h) => some (0, h)
  | Solid.cylinder _ h => some (0, h)
  | Solid.linear_extrude h _ => some (0, h)
  | Solid.translate (_, _, z) c =>
      (z_extent c).map (fun p => (p.1 + z, p.2 + z))
  | _ => none

/-- Modelled from the spec: the error taxonomy of section 7
(`InvalidParameter`, `FontNotFound`, `KernelEvaluationError`); no error
type exists under `src/`. -/
inductive BuildError : Type
  | InvalidParameter
  | FontNotFound
  | KernelEvaluationError
deriving DecidableEq, Repr

/-- Modelled from the spec: the fixed body height default of section 4.1
(a named constant, value unspecified by the spec). -/
def fixed_body_height : ℚ := 10

/-- Modelled from the spec: the fixed arm height default of section 4.1. -/
def fixed_arm_height : ℚ := 5

/-- Modelled from the spec: the fixed motor-mount height default of
section 4.1. -/
def fixed_mount_height : ℚ := 5

/-- Modelled from the spec: the assembled radial-frame CSG node of
section 4.1 — a central body box, and for each `i` an arm box and a
motor-mount cylinder, each translated outward and rotated by
`i * (360 / symmetry_count)` degrees about Z, unioned in ascending `i`
order. -/
def radial_frame_node (arm_length arm_width body_size
    motor_mount_diameter : ℚ) (symmetry_count : ℕ) : Solid :=
  let body := Solid.translate (-(body_size / 2), -(body_size / 2), 0)
    (Solid.cube (body_size, body_size, fixed_body_height))
  let step : ℚ := 360 / (symmetry_count : ℚ)
  let arm := fun (i : ℕ) => Solid.rotate_z ((i : ℚ) * step)
    (Solid.translate (body_size / 2, -(arm_width / 2), fixed_body_height / 2)
      (Solid.cube (arm_length, arm_width, fixed_arm_height)))
  let mount := fun (i : ℕ) => Solid.rotate_z ((i : ℚ) * step)
    (Solid.translate (body_size / 2 + arm_length, 0, fixed_body_height / 2)
      (Solid.cylinder (motor_mount_diameter / 2) fixed_mount_height))
  let withArms := (List.range symmetry_count).foldl
    (fun acc i => Solid.union acc (arm i)) body
  (List.range symmetry_count).foldl
    (fun acc i => Solid.union acc (mount i)) withArms

/-- Modelled from the spec: `RadialFrameBuilder.build` of section 4.1;
no such builder exists under `src/`.  Preconditions are checked first —
all lengths strictly positive, `motor_mount_diameter < arm_length`,
`symmetry_count >= 1` — and any violation fails with
`InvalidParameter` before any node is constructed (no kernel call). -/
def RadialFrameBuilder_build (arm_length arm_width body_size
    motor_mount_diameter : ℚ) (symmetry_count : ℕ) :
    Except BuildError Solid :=
  if arm_length ≤ 0 ∨ arm_width ≤ 0 ∨ body_size ≤ 0 ∨
      motor_mount_diameter ≤ 0 then
    Except.error BuildError.InvalidParameter
  else if arm_length ≤ motor_mount_diameter then
    Except.error BuildError.InvalidParameter
  else if symmetry_count < 1 then
    Except.error BuildError.InvalidParameter
  else
    Except.ok (radial_frame_node arm_length arm_width body_size
      motor_mount_diameter symmetry_count)

/-- The RFC 4648 standard base64 alphabet, as used by Python's
`base64.b64encode`. -/
def b64_alphabet : List Char :=
  ("ABCDEFGHIJKLMNOPQRSTUVWXYZabcdefghijklmnopqrstuvwxyz0123456789+/").toList

/-- The character encoding a six-bit value. -/
def sextet_char (s : Nat) : Char := b64_alphabet.getD s 'A'

/-- The six-bit value of an alphabet character (its index in the
alphabet). -/
def char_sextet (c : Char) : Nat := List.indexOf c b64_alphabet

/-- Embedding of `base64.b64encode`: three input bytes become four
alphabet characters; a final group of one or two bytes is padded with
`=`. -/
def b64encode : List Nat → List Char
  | [] => []
  | [b0] =>
      [sextet_char (b0 / 4), sextet_char (b0 % 4 * 16), '=', '=']
  | [b0, b1] =>
      [sextet_char (b0 / 4), sextet_char (b0 % 4 * 16 + b1 / 16),
       sextet_char (b1 % 16 * 4), '=']
  | b0 :: b1 :: b2 :: rest =>
      sextet_char (b0 / 4) :: sextet_char (b0 % 4 * 16 + b1 / 16) ::
      sextet_char (b1 % 16 * 4 + b2 / 64) :: sextet_char (b2 % 64) ::
      b64encode rest

/-- Standard base64 decoding (the inverse the browser applies to a
`data:` URL payload): four characters yield three bytes, with a final
`=`-padded group yielding one or two. -/
def b64decode : List Char → Option (List Nat)
  | [] => some []
  | c0 :: c1 :: c2 :: c3 :: rest =>
      if rest.isEmpty then
        if c2 = '=' then
          if c3 = '=' then
            some [char_sextet c0 * 4 + char_sextet c1 / 16]
          else none
        else if c3 = '=' then
          some [char_sextet c0 * 4 + char_sextet c1 / 16,
                char_sextet c1 % 16 * 16 + char_sextet c2 / 4]
        else
          some [char_sextet c0 * 4 + char_sextet c1 / 16,
                char_sextet c1 % 16 * 16 + char_sextet c2 / 4,
                char_sextet c2 % 4 * 64 + char_sextet c3]
      else
        (b64decode rest).map (fun bs =>
          (char_sextet c0 * 4 + char_sextet c1 / 16) ::
          (char_sextet c1 % 16 * 16 + char_sextet c2 / 4) ::
          (char_sextet c2 % 4 * 64 + char_sextet c3) :: bs)
  | _ => none

/-- Embedding of `get_download_link` (lines 44-60): read the file's
bytes from the file system, base64-encode them, and splice the payload
into the HTML anchor; `none` when the file does not exist (where the
Python `open` would raise). -/
def get_download_link (fs : FS) (file_path file_name mime_type : String) :
    Option String :=
  (fs file_path).map (fun bytes_data =>
    "<a href=\"data:" ++ mime_type ++ ";base64," ++
      String.mk (b64encode bytes_data) ++ "\" download=\"" ++ file_name ++
      "\">Download " ++ file_name ++ "</a>")

/-- Decoding the alphabet character of a six-bit value recovers the
value. -/
theorem char_sextet_sextet_char :
    ∀ s : Nat, s < 64 → char_sextet (sextet_char s) = s := by decide

/-- No alphabet character is the padding character. -/
theorem sextet_char_ne_pad : ∀ s : Nat, s < 64 → sextet_char s ≠ '=' := by
  decide

/-- Encoding a non-empty byte list yields a non-empty character list. -/
theorem b64encode_ne_nil (a : Nat) (l : List Nat) :
    b64encode (a :: l) ≠ [] := by
  match l with
  | [] => simp [b64encode]
  | [b] => simp [b64encode]
  | b :: c :: r => simp [b64encode]

/-- Induction on byte lists along the grouping that `b64encode` uses:
empty, a final single byte, a final pair, or a full group of three
followed by the rest. -/
theorem byte_group_ind (P : List Nat → Prop) (h0 : P [])
    (h1 : ∀ a, P [a]) (h2 : ∀ a b, P [a, b])
    (h3 : ∀ a b c r, P r → P (a :: b :: c :: r)) : ∀ l, P l
  | [] => h0
  | [a] => h1 a
  | [a, b] => h2 a b
  | a :: b :: c :: r => h3 a b c r (byte_group_ind P h0 h1 h2 h3 r)

/-- Base64 decoding inverts encoding on byte lists. -/
theorem b64decode_b64encode :
    ∀ bs : List Nat, (∀ b ∈ bs, b < 256) → b64decode (b64encode bs) = some bs := by
  apply byte_group_ind
    (fun bs => (∀ b ∈ bs, b < 256) → b64decode (b64encode bs) = some bs)
  · intro _
    rfl
  · intro a h
    have ha : a < 256 := h a (by simp)
    simp only [b64encode, b64decode, List.isEmpty_nil, if_true]
    rw [char_sextet_sextet_char (a / 4) (by omega),
      char_sextet_sextet_char (a % 4 * 16) (by omega)]
    have : a / 4 * 4 + a % 4 * 16 / 16 = a := by omega
    rw [this]
  · intro a b h
    have ha : a < 256 := h a (by simp)
    have hb : b < 256 := h b (by simp)
    simp only [b64encode, b64decode, List.isEmpty_nil, if_true]
    rw [if_neg (sextet_char_ne_pad (b % 16 * 4) (by omega))]
    rw [char_sextet_sextet_char (a / 4) (by omega),
      char_sextet_sextet_char (a % 4 * 16 + b / 16) (by omega),
      char_sextet_sextet_char (b % 16 * 4) (by omega)]
    have e0 : a / 4 * 4 + (a % 4 * 16 + b / 16) / 16 = a := by omega
    have e1 : (a % 4 * 16 + b / 16) % 16 * 16 + b % 16 * 4 / 4 = b := by
      omega
    rw [e0, e1]
  · intro a b c r ih h
    have ha : a < 256 := h a (by simp)
    have hb : b < 256 := h b (by simp)
    have hc : c < 256 := h c (by simp)
    match r with
    | [] =>
      simp only [b64encode, b64decode, List.isEmpty_nil, if_true]
      rw [if_neg (sextet_char_ne_pad (b % 16 * 4 + c / 64) (by omega))]
      rw [if_neg (sextet_char_ne_pad (c % 64) (by omega))]
      rw [char_sextet_sextet_char (a / 4) (by omega),
        char_sextet_sextet_char (a % 4 * 16 + b / 16) (by omega),
        char_sextet_sextet_char (b % 16 * 4 + c / 64) (by omega),
        char_sextet_sextet_char (c % 64) (by omega)]
      have e0 : a / 4 * 4 + (a % 4 * 16 + b / 16) / 16 = a := by omega
      have e1 : (a % 4 * 16 + b / 16) % 16 * 16 +
          (b % 16 * 4 + c / 64) / 4 = b := by omega
      have e2 : (b % 16 * 4 + c / 64) % 4 * 64 + c % 64 = c := by omega
      rw [e0, e1, e2]
    | r0 :: rs =>
      have hne : (b64encode (r0 :: rs)).isEmpty = false := by
        cases hE : b64encode (r0 :: rs) with
        | nil => exact absurd hE (b64encode_ne_nil r0 rs)
        | cons x xs => rfl
      have ihr : b64decode (b64encode (r0 :: rs)) = some (r0 :: rs) :=
        ih (fun x hx => h x (by simp [hx]))
      simp only [b64encode, b64decode, hne, if_false, Bool.false_eq_true,
        ihr, Option.map_some']
      rw [char_sextet_sextet_char (a / 4) (by omega),
        char_sextet_sextet_char (a % 4 * 16 + b / 16) (by omega),
        char_sextet_sextet_char (b % 16 * 4 + c / 64) (by omega),
        char_sextet_sextet_char (c % 64) (by omega)]
      have e0 : a / 4 * 4 + (a % 4 * 16 + b / 16) / 16 = a := by omega
      have e1 : (a % 4 * 16 + b / 16) % 16 * 16 +
          (b % 16 * 4 + c / 64) / 4 = b := by omega
      have e2 : (b % 16 * 4 + c / 64) % 4 * 64 + c % 64 = c := by omega
      rw [e0, e1, e2]

/-- Claim C1 (code behavior at the failing input): in the model built
for text "Hi", font "Liberation Sans", size 10, extrude height 5, base
thickness 2, the extruded text occupies Z in [0, 5] as the spec says,
but the base box is translated UP by the base thickness — it occupies
Z in [2, 4], not [-2, 0]: `translate([0, 0, thickness])` instead of
the spec's translation down. -/
theorem c1_base_translated_up :
    (model_parts (generate_model ("Hi") ("Liberation Sans") 10 5 2)).map
        (fun p => (z_extent p.1, z_extent p.2)) =
      some (some (0, 5), some (2, 4)) := by
  simp only [generate_model, model_parts, z_extent, Option.map_some']
  norm_num

/-- Claim C2 counterexample: calling the build operation with empty
text and size, extrude height, and base thickness all equal to -1 — a
parameter set invalid on every count — does not fail with
`InvalidParameter`: it returns the usual output path and the rendered
artifact is written there. -/
theorem c2_counterexample :
    (generate_solidpython_model ("") ("Liberation Sans") (-1) (-1) (-1)
        ("output_solidpython") (fun _ => none)).1 =
      "output_solidpython/text_model.scad" ∧
    ((generate_solidpython_model ("") ("Liberation Sans") (-1) (-1) (-1)
        ("output_solidpython") (fun _ => none)).2
        ("output_solidpython/text_model.scad")).isSome = true := by
  constructor
  · rfl
  · decide

/-- Claim C2 amended: `generate_solidpython_model` performs no
validation at all: even for parameter sets the spec rejects (empty
text, or non-positive size, extrude height, or base thickness) it
constructs the geometry, writes the rendered artifact to the output
path, and returns that path. -/
theorem c2_no_validation (input_text font : String)
    (size height thickness : ℚ) (output_dir : String) (fs : FS)
    (_h : input_text = "" ∨ size ≤ 0 ∨ height ≤ 0 ∨ thickness ≤ 0) :
    (generate_solidpython_model input_text font size height thickness
        output_dir fs).1 = os_path_join output_dir ("text_model.scad") ∧
    (generate_solidpython_model input_text font size height thickness
        output_dir fs).2 (os_path_join output_dir ("text_model.scad")) =
      some (str_bytes (scad_render
        (generate_model input_text font size height thickness))) := by
  refine ⟨rfl, ?_⟩
  simp [generate_solidpython_model]

/-- Witness for C2 amended, at the concrete invalid input of the
counterexample. -/
theorem c2_no_validation_witness :
    (generate_solidpython_model ("") ("Liberation Sans") (-1) (-1) (-1)
        ("output_solidpython") (fun _ => none)).1 =
      os_path_join ("output_solidpython") ("text_model.scad") ∧
    (generate_solidpython_model ("") ("Liberation Sans") (-1) (-1) (-1)
        ("output_solidpython") (fun _ => none)).2
        (os_path_join ("output_solidpython") ("text_model.scad")) =
      some (str_bytes (scad_render
        (generate_model ("") ("Liberation Sans") (-1) (-1) (-1)))) :=
  c2_no_validation ("") ("Liberation Sans") (-1) (-1) (-1)
    ("output_solidpython") (fun _ => none) (Or.inl rfl)

/-- Claim C3: for every input the base box has width
`size * length(input_text) * 0.6`, depth `size`, and height
`base_thickness`; in particular for "Hi" at size 10 the width is 12. -/
theorem c3_base_dimensions (input_text font : String)
    (size height thickness : ℚ) :
    base_dims (generate_model input_text font size height thickness) =
      some (size * (input_text.length : ℚ) * (3 / 5), size, thickness) ∧
    base_dims (generate_model ("Hi") font 10 height thickness) =
      some (12, 10, thickness) := by
  constructor
  · rfl
  · have hl : ("Hi").length = 2 := rfl
    simp only [generate_model, base_dims, hl]
    norm_num

/-- Claim C4: two calls with identical parameters produce
byte-identical `.scad` text output: running the build twice in
sequence returns the same path both times and leaves the very same
byte content at it, namely the rendering of the parameter-determined
model. -/
theorem c4_deterministic (input_text font : String)
    (size height thickness : ℚ) (output_dir : String) (fs : FS) :
    (generate_solidpython_model input_text font size height thickness
        output_dir fs).1 =
      (generate_solidpython_model input_text font size height thickness
        output_dir
        (generate_solidpython_model input_text font size height thickness
          output_dir fs).2).1 ∧
    (generate_solidpython_model input_text font size height thickness
        output_dir fs).2
      (generate_solidpython_model input_text font size height thickness
        output_dir fs).1 =
      (generate_solidpython_model input_text font size height thickness
        output_dir
        (generate_solidpython_model input_text font size height thickness
          output_dir fs).2).2
      (generate_solidpython_model input_text font size height thickness
        output_dir
        (generate_solidpython_model input_text font size height thickness
          output_dir fs).2).1 ∧
    (generate_solidpython_model input_text font size height thickness
        output_dir fs).2
      (generate_solidpython_model input_text font size height thickness
        output_dir fs).1 =
      some (str_bytes (scad_render
        (generate_model input_text font size height thickness))) := by
  refine ⟨rfl, ?_, ?_⟩ <;> simp [generate_solidpython_model]

/-- Claim C5 counterexample: with a font string that resolves to no
glyph source ("No-Such-Font-XYZ") the build does not fail with
`FontNotFound`: the font string is passed through unchanged into the
text leaf and the artifact is produced as usual. -/
theorem c5_counterexample :
    text_font_of (generate_model ("Hello") ("No-Such-Font-XYZ") 10 5 2) =
      some ("No-Such-Font-XYZ") ∧
    ((generate_solidpython_model ("Hello") ("No-Such-Font-XYZ") 10 5 2
        ("output_solidpython") (fun _ => none)).2
        ("output_solidpython/text_model.scad")).isSome = true := by
  constructor
  · rfl
  · decide

/-- Claim C5 amended: the builder never checks the font: for every font
string the build succeeds and the font is emitted unchanged into the
text primitive of the artifact — any default substitution happens
downstream in the OpenSCAD kernel, never as a `FontNotFound` failure
here. -/
theorem c5_font_passthrough (input_text font : String)
    (size height thickness : ℚ) (output_dir : String) (fs : FS) :
    text_font_of (generate_model input_text font size height thickness) =
      some font ∧
    (generate_solidpython_model input_text font size height thickness
        output_dir fs).1 = os_path_join output_dir ("text_model.scad") :=
  ⟨rfl, rfl⟩

/-- Claim C6 counterexample: a build request does modify state outside
its returned artifact: the file system at the output path changes from
absent to present; and a second request with the same directory
returns the same path and leaves there its own artifact, replacing
whatever the first request wrote. -/
theorem c6_counterexample :
    (generate_solidpython_model ("AB") ("F") 10 5 2 ("out")
        (fun _ => none)).2
        ((generate_solidpython_model ("AB") ("F") 10 5 2 ("out")
          (fun _ => none)).1) ≠
      (fun _ => none : FS)
        ((generate_solidpython_model ("AB") ("F") 10 5 2 ("out")
          (fun _ => none)).1) ∧
    (generate_solidpython_model ("AB") ("F") 10 5 2 ("out")
        (fun _ => none)).1 =
      (generate_solidpython_model ("CD") ("F") 10 5 2 ("out")
        (generate_solidpython_model ("AB") ("F") 10 5 2 ("out")
          (fun _ => none)).2).1 ∧
    (generate_solidpython_model ("CD") ("F") 10 5 2 ("out")
        (generate_solidpython_model ("AB") ("F") 10 5 2 ("out")
          (fun _ => none)).2).2
        ((generate_solidpython_model ("AB") ("F") 10 5 2 ("out")
          (fun _ => none)).1) =
      some (str_bytes (scad_render (generate_model ("CD") ("F") 10 5 2))) := by
  refine ⟨?_, rfl, ?_⟩ <;> simp [generate_solidpython_model]

/-- Claim C6 amended: each build computes its model purely from its
parameters, but it writes into the shared file system: the single path
`os.path.join(output_dir, "text_model.scad")` is modified and every
other path is left untouched; since that path depends only on
`output_dir`, requests sharing a directory share the file, and a later
request overwrites an earlier one's output. -/
theorem c6_frame (input_text font : String) (size height thickness : ℚ)
    (output_dir : String) (fs : FS) (q : String)
    (hq : q ≠ os_path_join output_dir ("text_model.scad")) :
    (generate_solidpython_model input_text font size height thickness
        output_dir fs).2 q = fs q := by
  simp [generate_solidpython_model, hq]

/-- Witness for C6 amended: a path other than the output file is
untouched by a concrete build. -/
theorem c6_frame_witness :
    (generate_solidpython_model ("Hi") ("F") 10 5 2 ("out")
        (fun _ => none)).2 ("other.txt") =
      (fun _ => none : FS) ("other.txt") :=
  c6_frame ("Hi") ("F") 10 5 2 ("out") (fun _ => none) ("other.txt")
    (by decide)

/-- Claim C7: the radial-frame builder fails with `InvalidParameter`
when `motor_mount_diameter` equals `arm_length` (the precondition
demands strict inequality) and when `arm_length` is zero, in both
cases before any node is constructed. -/
theorem c7_radial_boundary (arm_length arm_width body_size
    motor_mount_diameter : ℚ) (symmetry_count : ℕ) :
    RadialFrameBuilder_build arm_length arm_width body_size arm_length
        symmetry_count = Except.error BuildError.InvalidParameter ∧
    RadialFrameBuilder_build 0 arm_width body_size motor_mount_diameter
        symmetry_count = Except.error BuildError.InvalidParameter := by
  constructor
  · unfold RadialFrameBuilder_build
    by_cases h1 : arm_length ≤ 0 ∨ arm_width ≤ 0 ∨ body_size ≤ 0 ∨
        arm_length ≤ 0
    · rw [if_pos h1]
    · rw [if_neg h1, if_pos le_rfl]
  · unfold RadialFrameBuilder_build
    rw [if_pos (Or.inl le_rfl)]

/-- Claim C8: the returned path is
`os.path.join(output_dir, "text_model.scad")`, independent of every
other parameter: two calls with the same `output_dir` return the very
same path, and the second call's write lands on that path, replacing
the first call's output with the rendering of the second model. -/
theorem c8_fixed_output_path (t1 f1 : String) (s1 h1 th1 : ℚ)
    (t2 f2 : String) (s2 h2 th2 : ℚ) (output_dir : String) (fs : FS) :
    (generate_solidpython_model t1 f1 s1 h1 th1 output_dir fs).1 =
      os_path_join output_dir ("text_model.scad") ∧
    (generate_solidpython_model t1 f1 s1 h1 th1 output_dir fs).1 =
      (generate_solidpython_model t2 f2 s2 h2 th2 output_dir fs).1 ∧
    (generate_solidpython_model t2 f2 s2 h2 th2 output_dir
        (generate_solidpython_model t1 f1 s1 h1 th1 output_dir fs).2).2
        (os_path_join output_dir ("text_model.scad")) =
      some (str_bytes (scad_render (generate_model t2 f2 s2 h2 th2))) := by
  refine ⟨rfl, rfl, ?_⟩
  simp [generate_solidpython_model]

/-- Claim C9: the empty string is accepted without error: the build
constructs a degenerate base box of width `size * 0 * 0.6 = 0`, still
renders and writes the `.scad` artifact, and returns its path. -/
theorem c9_empty_text (font : String) (size height thickness : ℚ)
    (output_dir : String) (fs : FS) :
    base_dims (generate_model ("") font size height thickness) =
      some (0, size, thickness) ∧
    (generate_solidpython_model ("") font size height thickness
        output_dir fs).1 = os_path_join output_dir ("text_model.scad") ∧
    (generate_solidpython_model ("") font size height thickness
        output_dir fs).2 (os_path_join output_dir ("text_model.scad")) =
      some (str_bytes (scad_render
        (generate_model ("") font size height thickness))) := by
  refine ⟨?_, rfl, ?_⟩
  · simp [generate_model, base_dims]
  · simp [generate_solidpython_model]

/-- Claim C10: the anchor built by `get_download_link` embeds a base64
payload that decodes back to exactly the bytes of the file read: the
href is the anchor around `b64encode` of the file's content, and
decoding that payload returns the content. -/
theorem c10_download_link_roundtrip (fs : FS)
    (file_path file_name mime_type : String) (bytes_data : List Nat)
    (hf : fs file_path = some bytes_data)
    (hb : ∀ b ∈ bytes_data, b < 256) :
    get_download_link fs file_path file_name mime_type =
      some ("<a href=\"data:" ++ mime_type ++ ";base64," ++
        String.mk (b64encode bytes_data) ++ "\" download=\"" ++
        file_name ++ "\">Download " ++ file_name ++ "</a>") ∧
    b64decode (b64encode bytes_data) = some bytes_data := by
  refine ⟨?_, b64decode_b64encode bytes_data hb⟩
  simp [get_download_link, hf]

/-- Witness for C10: the bytes of "hi" round-trip through the link of a
concrete one-file file system. -/
theorem c10_download_link_roundtrip_witness :
    get_download_link
        (fun p => if p = ("f.scad") then some [104, 105] else none)
        ("f.scad") ("f.scad") ("application/scad") =
      some ("<a href=\"data:" ++ "application/scad" ++ ";base64," ++
        String.mk (b64encode [104, 105]) ++ "\" download=\"" ++
        "f.scad" ++ "\">Download " ++ "f.scad" ++ "</a>") ∧
    b64decode (b64encode [104, 105]) = some [104, 105] :=
  c10_download_link_roundtrip
    (fun p => if p = ("f.scad") then some [104, 105] else none)
    ("f.scad") ("f.scad") ("application/scad") [104, 105]
    (by decide) (by decide)
